import Mathlib

/-!
# Verification of the sphere-graph drawing core (`src/sphere_graph.js`)

Shallow embedding of the geometric and graph-construction core of
`Drawing.SphereGraph`:

* the spherical projection performed inline in `drawNode`
  (`src/sphere_graph.js` lines 323-328),
* the arc (bulged quadratic Bézier) construction in `drawEdge`
  (lines 359-375),
* the graph-construction harness `createGraph` (lines 226-255).

JavaScript numbers are modelled as real numbers `ℝ`.  The `Graph`/`Node`
classes and the THREE.js curve primitives are external to `src/` and are
modelled from the spec where needed; every such definition is marked
`Modelled from the spec:` in its doc comment.
-/

namespace SphereGraph

/-- A 2D geographic-style coordinate, as in the city literals of
`createGraph` (`{x: 44, y: 0}` etc.). -/
structure Vec2 where
  x : ℝ
  y : ℝ

/-- A 3D Cartesian point, as used for node positions and curve points. -/
@[ext]
structure Vec3 where
  x : ℝ
  y : ℝ
  z : ℝ

/-- The sphere radius used by the drawing: `var area = 5000` in `drawNode`
(line 323); also `sphere_radius = 5000` (line 122). -/
def area : ℝ := 5000

/-- The spherical projection computed inline by `drawNode`
(`src/sphere_graph.js` lines 324-328), read as a pure function:

    var phi = (90 - node.position.x) * Math.PI / 180;
    var theta = (180 - node.position.y) * Math.PI / 180;
    x' = area * Math.sin(phi) * Math.cos(theta);
    y' = area * Math.cos(phi);
    z' = area * Math.sin(phi) * Math.sin(theta);
-/
noncomputable def project (geo : Vec2) : Vec3 :=
  let phi : ℝ := (90 - geo.x) * Real.pi / 180
  let theta : ℝ := (180 - geo.y) * Real.pi / 180
  { x := area * Real.sin phi * Real.cos theta
    y := area * Real.cos phi
    z := area * Real.sin phi * Real.sin theta }

/-- Modelled from the spec: the spec's §4.2 SphericalProjector formula,
written from the spec's own pseudocode

    phi   = (90 - geo.x) * π / 180
    theta = (180 - geo.y) * π / 180
    position = (R sin phi cos theta, R cos phi, R sin phi sin theta)

with R = 5000, for comparison with the source-derived `project`. -/
noncomputable def projectSpec (geo : Vec2) : Vec3 :=
  let R : ℝ := 5000
  let phi : ℝ := (90 - geo.x) * Real.pi / 180
  let theta : ℝ := (180 - geo.y) * Real.pi / 180
  { x := R * Real.sin phi * Real.cos theta
    y := R * Real.cos phi
    z := R * Real.sin phi * Real.sin theta }

/-- A node record.  Modelled from the spec §3 and the usage in
`createGraph`: the graph library's `Node` class is not part of `src/`.
Note the source keeps a single `position` field which first holds the 2D
geographic coordinate (its `z` unused, modelled as 0) and is later
overwritten in place by `drawNode`; there is no separate `geoPosition`
field in the code. -/
structure Node where
  id : ℕ
  name : String
  position : Vec3

/-- `drawNode` (`src/sphere_graph.js` lines 320-340), restricted to its
effect on `node.position`: the three assignments of lines 326-328 are
modelled in sequence, updating the position record field by field exactly
as the source mutates `node.position`.  `phi` and `theta` are computed
(lines 324-325) before any assignment, from the old 2D coordinate. -/
noncomputable def drawNode (n : Node) : Node :=
  let phi : ℝ := (90 - n.position.x) * Real.pi / 180
  let theta : ℝ := (180 - n.position.y) * Real.pi / 180
  let p1 := { n.position with x := area * Real.sin phi * Real.cos theta }
  let p2 := { p1 with y := area * Real.cos phi }
  let p3 := { p2 with z := area * Real.sin phi * Real.sin theta }
  { n with position := p3 }

/-- The sequenced in-place mutation of `drawNode` equals the pure
projection of the node's prior 2D coordinate. -/
theorem drawNode_position (n : Node) :
    (drawNode n).position = project ⟨n.position.x, n.position.y⟩ := by
  rfl

/-- The bulged control point computed by `drawEdge`
(`src/sphere_graph.js` lines 359-366):

    var AvgX = (sourceXy.x + targetXy.x) / 2;   // likewise AvgY, AvgZ
    var diffX = Math.abs(sourceXy.x - targetXy.x);
    var diffY = Math.abs(sourceXy.y - targetXy.y);
    var middle = [AvgX, AvgY, AvgZ + (diffX + diffY/1.3)];
-/
noncomputable def bulgedMiddle (s t : Vec3) : Vec3 :=
  let avgX : ℝ := (s.x + t.x) / 2
  let avgY : ℝ := (s.y + t.y) / 2
  let avgZ : ℝ := (s.z + t.z) / 2
  let diffX : ℝ := |s.x - t.x|
  let diffY : ℝ := |s.y - t.y|
  { x := avgX, y := avgY, z := avgZ + (diffX + diffY / 1.3) }

/-- Modelled from the spec: the spec's §4.3 bulged midpoint, written from
the spec's own words — "the componentwise midpoint `M = (source + target)
/ 2`", "planar offsets `dx = |source.x - target.x|`, `dy = |source.y -
target.y|`", "bulge the midpoint outward along the z-axis by
`dx + dy/1.3`" — for comparison with the source-derived `bulgedMiddle`. -/
noncomputable def specBulgedMidpoint (source target : Vec3) : Vec3 :=
  let M : Vec3 := ⟨(source.x + target.x) / 2, (source.y + target.y) / 2,
    (source.z + target.z) / 2⟩
  let dx : ℝ := |source.x - target.x|
  let dy : ℝ := |source.y - target.y|
  { M with z := M.z + (dx + dy / 1.3) }

/-- Modelled from the spec: the quadratic Bézier curve with control points
`p0`, `p1`, `p2` (spec §4.3 step 4).  `THREE.QuadraticBezierCurve3` is
external library code, not in `src/`; the standard quadratic Bézier is
`B(t) = (1-t)² p0 + 2(1-t)t p1 + t² p2`, componentwise. -/
noncomputable def quadBezier (p0 p1 p2 : Vec3) (t : ℝ) : Vec3 :=
  { x := (1 - t) ^ 2 * p0.x + 2 * (1 - t) * t * p1.x + t ^ 2 * p2.x
    y := (1 - t) ^ 2 * p0.y + 2 * (1 - t) * t * p1.y + t ^ 2 * p2.y
    z := (1 - t) ^ 2 * p0.z + 2 * (1 - t) * t * p1.z + t ^ 2 * p2.z }

/-- The curve constructed by `drawEdge` (`src/sphere_graph.js` line 369):
`new THREE.QuadraticBezierCurve3(source, middle, target)` with `middle`
the bulged control point of lines 361-366. -/
noncomputable def drawEdgeCurve (s t : Vec3) : ℝ → Vec3 :=
  quadBezier s (bulgedMiddle s t) t

/-- Modelled from the spec: sampling a curve "into a fixed number of
points" (spec §4.3 step 5).  The sampler
(`THREE.CurvePath.createPointsGeometry`, `src/sphere_graph.js` line 375)
is external library code, not in `src/`; `n` points are taken at the
uniformly spaced parameters `i / (n - 1)` for `i = 0, …, n-1`, so that
the first point sits at parameter 0 and the last at parameter 1. -/
noncomputable def samplePoints (n : ℕ) (c : ℝ → Vec3) : List Vec3 :=
  (List.range n).map fun (i : ℕ) => c ((i : ℝ) / ((n - 1 : ℕ) : ℝ))

/-- The sampled polyline drawn for one edge: `drawEdge` passes 400 as the
sample-count argument (`path.createPointsGeometry(400)`, line 375). -/
noncomputable def arcPoints (s t : Vec3) : List Vec3 :=
  samplePoints 400 (drawEdgeCurve s t)

/-- A quadratic Bézier starts at its first control point. -/
theorem quadBezier_zero (p0 p1 p2 : Vec3) : quadBezier p0 p1 p2 0 = p0 := by
  unfold quadBezier
  ext <;> ring

/-- A quadratic Bézier ends at its last control point. -/
theorem quadBezier_one (p0 p1 p2 : Vec3) : quadBezier p0 p1 p2 1 = p2 := by
  unfold quadBezier
  ext <;> ring

/-- The first sampled arc point is the source position. -/
theorem arcPoints_head (s t : Vec3) : (arcPoints s t).head? = some s := by
  have h : (arcPoints s t).head? = some (drawEdgeCurve s t ((0 : ℕ) / ((399 : ℕ) : ℝ))) := rfl
  rw [h]
  norm_num [drawEdgeCurve, quadBezier_zero]

/-- The last sampled arc point is the target position. -/
theorem arcPoints_last (s t : Vec3) : (arcPoints s t).getLast? = some t := by
  have h : arcPoints s t =
      (List.range 399).map (fun (i : ℕ) => drawEdgeCurve s t ((i : ℝ) / ((399 : ℕ) : ℝ)))
        ++ [drawEdgeCurve s t (((399 : ℕ) : ℝ) / ((399 : ℕ) : ℝ))] := by
    unfold arcPoints samplePoints
    rw [show (400 : ℕ) = 399 + 1 from rfl, List.range_succ, List.map_append]
    norm_num
  rw [h, List.getLast?_concat]
  norm_num [drawEdgeCurve, quadBezier_one]

/-- Unfolding of `project` to its component expressions. -/
theorem project_eq (geo : Vec2) :
    project geo =
      ⟨area * Real.sin ((90 - geo.x) * Real.pi / 180) *
          Real.cos ((180 - geo.y) * Real.pi / 180),
        area * Real.cos ((90 - geo.x) * Real.pi / 180),
        area * Real.sin ((90 - geo.x) * Real.pi / 180) *
          Real.sin ((180 - geo.y) * Real.pi / 180)⟩ := rfl

/-- Evaluation of the projection at geographic coordinate (0, 0):
colatitude `phi = π/2`, longitude angle `theta = π`, giving the point
(-5000, 0, 0) on the equator. -/
theorem project_zero_zero : project ⟨0, 0⟩ = ⟨-5000, 0, 0⟩ := by
  rw [project_eq]
  have hphi : ((90 : ℝ) - 0) * Real.pi / 180 = Real.pi / 2 := by ring
  have htheta : ((180 : ℝ) - 0) * Real.pi / 180 = Real.pi := by ring
  simp only [hphi, htheta, Real.sin_pi_div_two, Real.cos_pi_div_two, Real.sin_pi,
    Real.cos_pi, area]
  ext <;> norm_num

/-- Evaluation of the projection at the north pole (x = 90): `phi = 0`. -/
theorem project_north_pole (y : ℝ) : project ⟨90, y⟩ = ⟨0, 5000, 0⟩ := by
  rw [project_eq]
  have hphi : ((90 : ℝ) - 90) * Real.pi / 180 = 0 := by ring
  simp only [hphi, Real.sin_zero, Real.cos_zero, area]
  ext <;> norm_num

/-- Evaluation of the projection at the south pole (x = -90): `phi = π`. -/
theorem project_south_pole (y : ℝ) : project ⟨-90, y⟩ = ⟨0, -5000, 0⟩ := by
  rw [project_eq]
  have hphi : ((90 : ℝ) - -90) * Real.pi / 180 = Real.pi := by ring
  simp only [hphi, Real.sin_pi, Real.cos_pi, area]
  ext <;> norm_num

/-- C1: for every node with geographic coordinate (x, y), the projection
performed by `drawNode` computes `phi = (90 - x)·π/180` and
`theta = (180 - y)·π/180` and yields the 3D position
`(R·sin phi·cos theta, R·cos phi, R·sin phi·sin theta)` with R = 5000,
exactly the spec's stated formula (`projectSpec`). -/
theorem C1_drawNode_matches_spec_formula (n : Node) :
    (drawNode n).position = projectSpec ⟨n.position.x, n.position.y⟩ := rfl

/-- C3 counterexample: the claim puts `project (0,0)` on the plane x = 0,
approximately at (0, 5000, 0); in fact the x-component is -5000, so the
point is neither on that plane nor near that position. -/
theorem C3_counterexample :
    (project ⟨0, 0⟩).x = -5000 ∧ (project ⟨0, 0⟩).x ≠ 0 ∧
      project ⟨0, 0⟩ ≠ ⟨0, 5000, 0⟩ := by
  rw [project_zero_zero]
  refine ⟨rfl, by norm_num, ?_⟩
  intro h
  have hx := congrArg Vec3.x h
  norm_num at hx

/-- C3 amended: projecting (0, 0) yields a point at distance R = 5000 from
the origin lying on the equatorial plane y = 0: exactly (-5000, 0, 0). -/
theorem C3_amended_projection_sanity :
    project ⟨0, 0⟩ = ⟨-5000, 0, 0⟩ ∧
      (project ⟨0, 0⟩).x ^ 2 + (project ⟨0, 0⟩).y ^ 2 + (project ⟨0, 0⟩).z ^ 2 =
        5000 ^ 2 ∧
      (project ⟨0, 0⟩).y = 0 := by
  rw [project_zero_zero]
  refine ⟨rfl, by norm_num, rfl⟩

/-- C7: for all longitude values a and b, projecting (90, a) and (90, b)
yields the same position, the pole (0, 5000, 0); likewise x = -90
collapses to (0, -5000, 0) regardless of the longitude. -/
theorem C7_pole_degeneracy (a b : ℝ) :
    project ⟨90, a⟩ = project ⟨90, b⟩ ∧ project ⟨90, a⟩ = ⟨0, 5000, 0⟩ ∧
      project ⟨-90, a⟩ = project ⟨-90, b⟩ ∧ project ⟨-90, a⟩ = ⟨0, -5000, 0⟩ := by
  rw [project_north_pole a, project_north_pole b, project_south_pole a,
    project_south_pole b]
  exact ⟨rfl, rfl, rfl, rfl⟩

/-- C2: for distinct 3D endpoints, the arc drawn by `drawEdge` is the
quadratic Bézier curve whose control points are the source, the
componentwise midpoint with its z-component increased by
`dx + dy/1.3` (`specBulgedMidpoint`), and the target. -/
theorem C2_arc_control_points (s t : Vec3) (h : s ≠ t) :
    bulgedMiddle s t = specBulgedMidpoint s t ∧
      drawEdgeCurve s t = quadBezier s (specBulgedMidpoint s t) t :=
  ⟨rfl, rfl⟩

/-- Witness for C2 at the concrete pair (0,0,0), (1,0,0). -/
theorem C2_arc_control_points_witness :
    ((⟨0, 0, 0⟩ : Vec3) ≠ ⟨1, 0, 0⟩) ∧
      (bulgedMiddle ⟨0, 0, 0⟩ ⟨1, 0, 0⟩ = specBulgedMidpoint ⟨0, 0, 0⟩ ⟨1, 0, 0⟩ ∧
        drawEdgeCurve ⟨0, 0, 0⟩ ⟨1, 0, 0⟩ =
          quadBezier ⟨0, 0, 0⟩ (specBulgedMidpoint ⟨0, 0, 0⟩ ⟨1, 0, 0⟩) ⟨1, 0, 0⟩) :=
  ⟨by simp [Vec3.mk.injEq], C2_arc_control_points _ _ (by simp [Vec3.mk.injEq])⟩

/-- C4: for every non-degenerate source/target pair, the sampled polyline
produced for an arc has exactly 400 sample points. -/
theorem C4_arc_sample_count (s t : Vec3) (h : s ≠ t) :
    (arcPoints s t).length = 400 := by
  simp [arcPoints, samplePoints]

/-- Witness for C4 at the concrete pair (0,0,0), (1,0,0). -/
theorem C4_arc_sample_count_witness :
    ((⟨0, 0, 0⟩ : Vec3) ≠ ⟨1, 0, 0⟩) ∧
      (arcPoints ⟨0, 0, 0⟩ ⟨1, 0, 0⟩).length = 400 :=
  ⟨by simp [Vec3.mk.injEq], C4_arc_sample_count _ _ (by simp [Vec3.mk.injEq])⟩

/-- C9: for every non-degenerate source/target pair, the first sampled arc
point equals the source position and the last equals the target position,
exactly. -/
theorem C9_arc_endpoints (s t : Vec3) (h : s ≠ t) :
    (arcPoints s t).head? = some s ∧ (arcPoints s t).getLast? = some t :=
  ⟨arcPoints_head s t, arcPoints_last s t⟩

/-- Witness for C9 at the concrete pair (0,0,0), (1,0,0). -/
theorem C9_arc_endpoints_witness :
    ((⟨0, 0, 0⟩ : Vec3) ≠ ⟨1, 0, 0⟩) ∧
      ((arcPoints ⟨0, 0, 0⟩ ⟨1, 0, 0⟩).head? = some ⟨0, 0, 0⟩ ∧
        (arcPoints ⟨0, 0, 0⟩ ⟨1, 0, 0⟩).getLast? = some ⟨1, 0, 0⟩) :=
  ⟨by simp [Vec3.mk.injEq], C9_arc_endpoints _ _ (by simp [Vec3.mk.injEq])⟩

/-- The bulged control point is symmetric in its two endpoints. -/
theorem bulgedMiddle_comm (a b : Vec3) : bulgedMiddle a b = bulgedMiddle b a := by
  unfold bulgedMiddle
  ext <;> simp only [abs_sub_comm a.x b.x, abs_sub_comm a.y b.y] <;> ring

/-- Swapping the endpoints reparametrises the drawn curve by `u ↦ 1 - u`. -/
theorem drawEdgeCurve_swap (a b : Vec3) (u : ℝ) :
    drawEdgeCurve b a u = drawEdgeCurve a b (1 - u) := by
  unfold drawEdgeCurve
  rw [bulgedMiddle_comm b a]
  unfold quadBezier
  ext <;> ring

/-- Sampling a curve and sampling its `u ↦ 1 - u` reparametrisation give
reversed point lists. -/
theorem samplePoints_reverse (f g : ℝ → Vec3) (h : ∀ u : ℝ, g u = f (1 - u)) :
    samplePoints 400 g = (samplePoints 400 f).reverse := by
  apply List.ext_getElem
  · simp [samplePoints]
  · intro i h1 h2
    simp only [samplePoints, List.getElem_reverse, List.getElem_map,
      List.getElem_range, List.length_map, List.length_range]
    rw [h]
    congr 1
    have hi : i ≤ 399 := by
      simp only [samplePoints, List.length_map, List.length_range] at h1
      omega
    have hcast : ((400 - 1 - i : ℕ) : ℝ) = 399 - (i : ℝ) := by
      have : (400 - 1 - i : ℕ) = 399 - i := by omega
      rw [this, Nat.cast_sub hi]
      norm_num
    rw [hcast]
    have h399 : ((399 : ℕ) : ℝ) ≠ 0 := by norm_num
    field_simp

/-- C10: for distinct endpoints a and b, the arcs for (a, b) and (b, a)
share the identical bulged control point, and the two sampled polylines
are reverses of one another (the same curve traversed in opposite
directions). -/
theorem C10_arc_symmetry (a b : Vec3) (h : a ≠ b) :
    bulgedMiddle a b = bulgedMiddle b a ∧ arcPoints b a = (arcPoints a b).reverse :=
  ⟨bulgedMiddle_comm a b,
    samplePoints_reverse (drawEdgeCurve a b) (drawEdgeCurve b a)
      (drawEdgeCurve_swap a b)⟩

/-- Witness for C10 at the concrete pair (0,0,0), (1,0,0). -/
theorem C10_arc_symmetry_witness :
    ((⟨0, 0, 0⟩ : Vec3) ≠ ⟨1, 0, 0⟩) ∧
      (bulgedMiddle ⟨0, 0, 0⟩ ⟨1, 0, 0⟩ = bulgedMiddle ⟨1, 0, 0⟩ ⟨0, 0, 0⟩ ∧
        arcPoints ⟨1, 0, 0⟩ ⟨0, 0, 0⟩ = (arcPoints ⟨0, 0, 0⟩ ⟨1, 0, 0⟩).reverse) :=
  ⟨by simp [Vec3.mk.injEq], C10_arc_symmetry _ _ (by simp [Vec3.mk.injEq])⟩

/-- Modelled from the spec: the Graph container of §3/§4.1.  The graph
library (`Graph`, `addNode`, `addEdge`) is loaded from `graph-min.js` and
is not part of `src/`.  Nodes are keyed by their unique integer id; the
node payload (name, position) plays no role in any graph operation, so the
container records ids.  Edges are unordered pairs of node ids stored in
insertion order. -/
structure Graph where
  limit : Option ℕ
  nodeIds : List ℕ
  edges : List (ℕ × ℕ)

/-- Whether the stored edge `e` connects the unordered pair {a, b}. -/
def edgeConnects (e : ℕ × ℕ) (a b : ℕ) : Bool :=
  (e.1 == a && e.2 == b) || (e.1 == b && e.2 == a)

/-- Modelled from the spec: `addNode(node) -> bool` (§4.1) "succeeds and
registers the node if its id is not already present and the configured
node limit (if any) is not exceeded; otherwise fails without mutating
state".  Returns the success flag and the next graph state. -/
def Graph.addNode (g : Graph) (id : ℕ) : Bool × Graph :=
  if g.nodeIds.contains id then (false, g)
  else
    match g.limit with
    | some L =>
        if g.nodeIds.length < L then (true, { g with nodeIds := g.nodeIds ++ [id] })
        else (false, g)
    | none => (true, { g with nodeIds := g.nodeIds ++ [id] })

/-- Modelled from the spec: `addEdge(a, b) -> bool` (§4.1) "succeeds and
registers a new Edge if `a.id != b.id` and no edge already connects the
unordered pair {a,b}; otherwise fails ... leaving the graph unchanged". -/
def Graph.addEdge (g : Graph) (a b : ℕ) : Bool × Graph :=
  if a == b then (false, g)
  else if g.edges.any (fun e => edgeConnects e a b) then (false, g)
  else (true, { g with edges := g.edges ++ [(a, b)] })

/-- The 7 reference cities of `createGraph` (`src/sphere_graph.js` lines
226-234), with their literal geographic coordinates; the loop index `i`
becomes the node id (`new Node(i)`). -/
def cities : List (String × Vec2) :=
  [("Bordeax", ⟨44, 0⟩),
   ("Bangkok", ⟨13, 100⟩),
   ("Bombay", ⟨19, 72⟩),
   ("Beijing", ⟨39, 116⟩),
   ("Berlin", ⟨52, 13⟩),
   ("Brisbane", ⟨-27, 153⟩),
   ("Santiago", ⟨-33, -70⟩)]

/-- The geographic coordinate of the city with node id `i`. -/
def cityGeo (i : ℕ) : Vec2 := ((cities.getD i ("", ⟨0, 0⟩)).2)

/-- The 3D position of node `i` at edge-drawing time: `drawNode` has
already overwritten `node.position` with the projection, so `drawEdge`
reads the projected coordinates. -/
noncomputable def nodePos (i : ℕ) : Vec3 := project (cityGeo i)

/-- Result of running the `createGraph` harness: the final graph state,
the ids passed to `drawNode`, and the id pairs passed to `drawEdge`. -/
structure HarnessResult where
  graph : Graph
  drawnNodes : List ℕ
  drawnEdges : List (ℕ × ℕ)

/-- The node loop of `createGraph` (`src/sphere_graph.js` lines 238-245):
for each id in order, `graph.addNode(node); drawNode(node);` — note the
return value of `addNode` is NOT consulted and `drawNode` runs
unconditionally.  Returns the final graph and the drawn-node ids. -/
def addNodesLoop (g : Graph) : List ℕ → Graph × List ℕ
  | [] => (g, [])
  | i :: rest =>
      let g1 := (g.addNode i).2
      let (g2, drawn) := addNodesLoop g1 rest
      (g2, i :: drawn)

/-- The inner edge loop of `createGraph` (lines 249-254): for each
remaining `target`, `if (graph.addEdge(current, target)) drawEdge(...)` —
the edge is drawn only when `addEdge` succeeds. -/
def edgeInnerLoop (g : Graph) (current : ℕ) :
    List ℕ → Graph × List (ℕ × ℕ)
  | [] => (g, [])
  | t :: ts =>
      let (ok, g1) := g.addEdge current t
      let (g2, drawn) := edgeInnerLoop g1 current ts
      (g2, if ok then (current, t) :: drawn else drawn)

/-- The outer `while (nodes.length)` loop of `createGraph` (lines
247-255): shift the current node and pair it with every later node. -/
def edgeOuterLoop (g : Graph) : List ℕ → Graph × List (ℕ × ℕ)
  | [] => (g, [])
  | current :: rest =>
      let (g1, drawn1) := edgeInnerLoop g current rest
      let (g2, drawn2) := edgeOuterLoop g1 rest
      (g2, drawn1 ++ drawn2)

/-- The whole `createGraph` harness (lines 226-255), parameterised by the
graph's configured node limit (`new Graph({limit: options.limit})`, line
118; the reference invocation passes no limit). -/
def createGraph (limit : Option ℕ) : HarnessResult :=
  let ids := List.range cities.length
  let g0 : Graph := { limit := limit, nodeIds := [], edges := [] }
  { graph := (edgeOuterLoop (addNodesLoop g0 ids).1 ids).1
    drawnNodes := (addNodesLoop g0 ids).2
    drawnEdges := (edgeOuterLoop (addNodesLoop g0 ids).1 ids).2 }

/-- `addNode` never touches the edge list. -/
theorem addNode_edges (g : Graph) (i : ℕ) : (g.addNode i).2.edges = g.edges := by
  unfold Graph.addNode
  split
  · rfl
  · split
    · split <;> rfl
    · rfl

/-- The node loop draws every id it is given, unconditionally. -/
theorem addNodesLoop_drawn :
    ∀ (ids : List ℕ) (g : Graph), (addNodesLoop g ids).2 = ids
  | [], _ => rfl
  | i :: rest, g => by
      simp only [addNodesLoop]
      rw [addNodesLoop_drawn rest]

/-- The node loop never touches the edge list. -/
theorem addNodesLoop_edges :
    ∀ (ids : List ℕ) (g : Graph), (addNodesLoop g ids).1.edges = g.edges
  | [], _ => rfl
  | i :: rest, g => by
      simp only [addNodesLoop]
      rw [addNodesLoop_edges rest, addNode_edges]

/-- `addEdge` appends the new pair exactly when it succeeds. -/
theorem addEdge_edges (g : Graph) (a b : ℕ) :
    (g.addEdge a b).2.edges =
      g.edges ++ (if (g.addEdge a b).1 then [(a, b)] else []) := by
  unfold Graph.addEdge
  split
  · simp
  · split <;> simp

/-- The inner edge loop's final edge list is the starting edge list
followed by exactly the drawn pairs. -/
theorem edgeInnerLoop_edges (current : ℕ) :
    ∀ (ts : List ℕ) (g : Graph),
      (edgeInnerLoop g current ts).1.edges =
        g.edges ++ (edgeInnerLoop g current ts).2
  | [], g => by simp [edgeInnerLoop]
  | t :: ts, g => by
      have ih := edgeInnerLoop_edges current ts (g.addEdge current t).2
      have hadd := addEdge_edges g current t
      simp only [edgeInnerLoop]
      rw [ih, hadd]
      cases (g.addEdge current t).1 <;> simp

/-- The outer edge loop's final edge list is the starting edge list
followed by exactly the drawn pairs. -/
theorem edgeOuterLoop_edges :
    ∀ (ids : List ℕ) (g : Graph),
      (edgeOuterLoop g ids).1.edges = g.edges ++ (edgeOuterLoop g ids).2
  | [], g => by simp [edgeOuterLoop]
  | current :: rest, g => by
      have hinner := edgeInnerLoop_edges current rest g
      have ih := edgeOuterLoop_edges rest (edgeInnerLoop g current rest).1
      simp only [edgeOuterLoop]
      rw [ih, hinner, List.append_assoc]

/-- C5 counterexample: the node record has a single `position` field
holding the 2D input coordinate; `drawNode` overwrites it in place.  For
a node with geographic coordinate (90, 0), the stored y-coordinate
changes from 0 to 5000, so the original 2D coordinate is not retained
(there is no separate `geoPosition` field in the code). -/
theorem C5_counterexample :
    (⟨0, "P", ⟨90, 0, 0⟩⟩ : Node).position.y = 0 ∧
      (drawNode ⟨0, "P", ⟨90, 0, 0⟩⟩).position.y = 5000 ∧
      (drawNode ⟨0, "P", ⟨90, 0, 0⟩⟩).position.y ≠
        (⟨0, "P", ⟨90, 0, 0⟩⟩ : Node).position.y := by
  have h : (drawNode ⟨0, "P", ⟨90, 0, 0⟩⟩).position = ⟨0, 5000, 0⟩ := by
    rw [drawNode_position]
    exact project_north_pole 0
  refine ⟨rfl, by rw [h], by rw [h]; norm_num⟩

/-- C5 amended: the node's 3D position is always derived from the 2D
coordinate held in `node.position` at draw time — `drawNode` replaces
`node.position` with exactly the projection of its previous (x, y) — but
the derivation overwrites that same field, so the original 2D coordinate
is destroyed rather than retained (no `geoPosition` field exists). -/
theorem C5_amended_position_derived (n : Node) :
    (drawNode n).position = project ⟨n.position.x, n.position.y⟩ :=
  drawNode_position n

/-- C6: constructing the graph from the 7 reference cities by adding all
7 nodes and then pairing every earlier node with every later node yields
exactly C(7,2) = 21 edges, each a distinct unordered pair of distinct
nodes, and each drawn arc's first and last sampled points are the two
cities' projected positions. -/
theorem C6_end_to_end_scenario :
    (createGraph none).graph.edges.length = 21 ∧
      (createGraph none).drawnEdges.length = 21 ∧
      ((createGraph none).drawnEdges.Pairwise fun e f =>
        ¬(edgeConnects e f.1 f.2 = true)) ∧
      (∀ e ∈ (createGraph none).drawnEdges, e.1 ≠ e.2) ∧
      (∀ e ∈ (createGraph none).drawnEdges,
        (arcPoints (nodePos e.1) (nodePos e.2)).head? = some (nodePos e.1) ∧
          (arcPoints (nodePos e.1) (nodePos e.2)).getLast? = some (nodePos e.2)) := by
  refine ⟨by decide, by decide, by decide, by decide, ?_⟩
  intro e _
  exact ⟨arcPoints_head _ _, arcPoints_last _ _⟩

/-- C8 counterexample: node draws are not guarded by `addNode`'s result.
With a configured node limit of 3, the `addNode` call for node id 3 fails
(the graph already holds nodes 0, 1, 2), yet the harness still draws
node 3: `createGraph` calls `drawNode` unconditionally after `addNode`. -/
theorem C8_counterexample :
    (Graph.addNode { limit := some 3, nodeIds := [0, 1, 2], edges := [] } 3).1 =
        false ∧
      (createGraph (some 3)).graph.nodeIds = [0, 1, 2] ∧
      3 ∉ (createGraph (some 3)).graph.nodeIds ∧
      3 ∈ (createGraph (some 3)).drawnNodes := by
  refine ⟨by decide, by decide, by decide, by decide⟩

/-- C8 amended: in the `createGraph` harness an edge is drawn exactly
when its `addEdge` call succeeds (the drawn-edge list coincides with the
graph's registered edge list), but nodes are drawn unconditionally: every
city id is passed to `drawNode` regardless of the outcome of its
`addNode` call, for any configured node limit. -/
theorem C8_amended_mutation_checks (L : Option ℕ) :
    (createGraph L).drawnNodes = List.range cities.length ∧
      (createGraph L).drawnEdges = (createGraph L).graph.edges := by
  constructor
  · exact addNodesLoop_drawn _ _
  · simp only [createGraph]
    rw [edgeOuterLoop_edges, addNodesLoop_edges]
    exact (List.nil_append _).symm

end SphereGraph
